import Mathlib

/-!
Shallow embedding of the node-liveness subsystem of
`src/pkg/storage/node_liveness.go`.

The replicated KV store is abstracted by the outcome of the single
conditional-put an operation performs (`CPutResult`): either the put
commits, or it fails and hands back the actual stored record.  The
in-memory cache (`nl.mu.nodes`) is an association list from node id to
liveness record; the registered becomes-live callbacks are a list of
abstract callback identifiers, and an operation's result records which
callback invocations `(callback, nodeID)` fired.  Metric counters are
reported as per-call increments.
-/

namespace NodeLiveness

/-- Embeds `hlc.Timestamp` / `hlc.LegacyTimestamp`: wall time in nanoseconds plus
a logical counter. -/
structure Timestamp where
  wallTime : Int
  logical : Int
  deriving DecidableEq, Repr

/-- Embeds `hlc.Timestamp.Add`: component-wise addition. -/
def Timestamp.add (t : Timestamp) (wallTime logical : Int) : Timestamp :=
  ⟨t.wallTime + wallTime, t.logical + logical⟩

/-- Embeds `hlc.Timestamp.Less`: lexicographic comparison, wall time first. -/
def Timestamp.less (t s : Timestamp) : Bool :=
  t.wallTime < s.wallTime || (t.wallTime == s.wallTime && t.logical < s.logical)

/-- Embeds `storagepb.Liveness`: the per-node liveness record. -/
structure Liveness where
  nodeID : Int
  epoch : Int
  expiration : Timestamp
  draining : Bool
  decommissioning : Bool
  deriving DecidableEq, Repr

/-- The Go zero value `storagepb.Liveness{}`. -/
def Liveness.empty : Liveness :=
  ⟨0, 0, ⟨0, 0⟩, false, false⟩

/-- Modelled from the spec: `storagepb.Liveness.IsLive` lives outside the
provided sources (only its callers are under `src/`).  The spec states
"A record is live at time t iff `t + max_clock_offset < expiration`". -/
def Liveness.IsLive (l : Liveness) (now : Timestamp) (maxOffset : Int) : Bool :=
  (now.add maxOffset 0).less l.expiration

/-- Embeds `shouldReplaceLiveness` (node_liveness.go:893-915): the cache's
dominance rule deciding whether a candidate record replaces the stored
one. -/
def shouldReplaceLiveness (old new : Liveness) : Bool :=
  if old = Liveness.empty then
    true
  else if old.epoch != new.epoch then
    decide (old.epoch < new.epoch)
  else if old.expiration != new.expiration then
    old.expiration.less new.expiration
  else
    old.draining != new.draining || old.decommissioning != new.decommissioning

/-- Association-list lookup standing in for the Go map `nl.mu.nodes`. -/
def lookupNode : List (Int × Liveness) → Int → Option Liveness
  | [], _ => none
  | (k, v) :: rest, nid => if k = nid then some v else lookupNode rest nid

/-- Association-list insert/overwrite standing in for Go map assignment. -/
def insertNode : List (Int × Liveness) → Int → Liveness → List (Int × Liveness)
  | [], nid, l => [(nid, l)]
  | (k, v) :: rest, nid, l =>
    if k = nid then (nid, l) :: rest else (k, v) :: insertNode rest nid l

/-- The mutex-guarded state `nl.mu`: the cached records and the
registered becomes-live callbacks (as abstract identifiers). -/
structure CacheState where
  nodes : List (Int × Liveness)
  callbacks : List Nat
  deriving DecidableEq, Repr

/-- Embeds `maybeUpdate` (node_liveness.go:869-891): offer a record to the
cache; on acceptance, if the node was not live before and is live now,
invoke every registered callback with the node id.  Returns the new
state and the list of `(callback, nodeID)` invocations. -/
def maybeUpdate (st : CacheState) (now : Timestamp) (maxOffset : Int)
    (new : Liveness) : CacheState × List (Nat × Int) :=
  let old := (lookupNode st.nodes new.nodeID).getD Liveness.empty
  if shouldReplaceLiveness old new then
    ({ st with nodes := insertNode st.nodes new.nodeID new },
      if !old.IsLive now maxOffset && new.IsLive now maxOffset then
        st.callbacks.map (fun c => (c, new.nodeID))
      else [])
  else
    (st, [])

/-- The error outcomes of the mutator API (node_liveness.go error values;
`Errorf` sites are represented by dedicated constructors). -/
inductive LivenessErr where
  | noLivenessRecord
  | epochIncremented
  | cannotIncrementLive
  | nodeAlreadyLive
  | epochAlreadyIncremented
  | expirationRegress
  | changeDecommissioningFailed
  | nodeDrainingSet
  | failedUpdateLiveness
  | unexpectedEpoch
  | mismatchIncrementingEpoch
  deriving DecidableEq, Repr

/-- The outcome of the single conditional-put an operation attempts:
either it commits, or it fails carrying the actual stored record
(`roachpb.ConditionFailedError`; a nil actual value is the zero
record). -/
inductive CPutResult where
  | ok
  | condFailed (actual : Liveness)
  deriving DecidableEq, Repr

/-- Embeds `livenessUpdate` (node_liveness.go:334-341). -/
structure LivenessUpdate where
  liveness : Liveness
  ignoreCache : Bool
  deriving DecidableEq, Repr

/-- Result of one `updateLivenessAttempt`: the cache state, the
becomes-live callback invocations fired, the error returned, the record
written by a committed conditional-put (`none` when no put committed),
whether the registered heartbeat callback ran, and whether the
condition-failure handler was invoked. -/
structure UpdResult where
  cache : CacheState
  fired : List (Nat × Int)
  err : Option LivenessErr
  written : Option Liveness
  hbCallback : Bool
  condFailed : Bool
  deriving DecidableEq, Repr

/-- Embeds `updateLivenessAttempt` (node_liveness.go:797-865): optional cache
pre-check, then the conditional-put against `oldLiveness`; on success the
registered heartbeat callback is invoked; on condition failure (or a
pre-check hit) the caller's handler runs on the actual record.  The
handler returns the updated cache, the callback invocations it caused
and the error it chose. -/
def updateLivenessAttempt (st : CacheState) (update : LivenessUpdate)
    (oldLiveness : Option Liveness) (kv : CPutResult)
    (handleCondFailed :
      CacheState → Liveness → CacheState × List (Nat × Int) × Option LivenessErr) :
    UpdResult :=
  let runHandler := fun (actual : Liveness) =>
    let r := handleCondFailed st actual
    UpdResult.mk r.1 r.2.1 r.2.2 none false true
  let runPut : UpdResult :=
    match kv with
    | CPutResult.ok => UpdResult.mk st [] none (some update.liveness) true false
    | CPutResult.condFailed actual => runHandler actual
  if update.ignoreCache then
    runPut
  else
    match lookupNode st.nodes update.liveness.nodeID with
    | none => runPut
    | some l => if oldLiveness ≠ some l then runHandler l else runPut

/-- Result of a whole mutator operation: as `UpdResult`, plus the metric
increments of the call and the `changed` flag of `SetDecommissioning`. -/
structure OpResult where
  cache : CacheState
  fired : List (Nat × Int)
  err : Option LivenessErr
  written : Option Liveness
  hbCallback : Bool
  condFailed : Bool
  succM : Nat
  failM : Nat
  epochIncM : Nat
  changed : Bool
  deriving DecidableEq, Repr

/-- Embeds `timeutil.ClocklessMaxOffset` (`math.MaxInt64`), the sentinel max
offset of clockless-read mode. -/
def clocklessMaxOffset : Int := 9223372036854775807

/-- The max offset actually added into a heartbeat expiration
(node_liveness.go:550-553): the sentinel collapses to zero. -/
def effectiveMaxOffset (maxOffset : Int) : Int :=
  if maxOffset = clocklessMaxOffset then 0 else maxOffset

/-- The proposed record a heartbeat builds (node_liveness.go:532-555):
start from the expected record if present, else `{nodeID, epoch 1}`;
when incrementing the epoch, bump it and clear draining; then set the
expiration to `now + livenessThreshold + maxOffset`. -/
def heartbeatUpdateRecord (selfID : Int) (now : Timestamp)
    (livenessThreshold maxOffset : Int) (liveness : Option Liveness)
    (incrementEpoch : Bool) : Liveness :=
  let upd0 : Liveness :=
    match liveness with
    | none => { Liveness.empty with nodeID := selfID, epoch := 1 }
    | some l =>
      if incrementEpoch then { l with epoch := l.epoch + 1, draining := false } else l
  { upd0 with
    expiration := now.add (livenessThreshold + effectiveMaxOffset maxOffset) 0 }

/-- Embeds `heartbeatInternal` (node_liveness.go:507-589): build the proposed
record, reject an expiration regression, conditional-put against the
expected record; on condition failure treat a still-live node (when not
incrementing the epoch) as success, else fail with epoch-incremented;
on success offer the proposed record to the cache.  Success bumps
`heartbeatsuccesses`, failure bumps `heartbeatfailures`. -/
def heartbeatInternal (st : CacheState) (selfID : Int) (now : Timestamp)
    (livenessThreshold maxOffset : Int) (liveness : Option Liveness)
    (incrementEpoch : Bool) (kv : CPutResult) : OpResult :=
  let upd :=
    heartbeatUpdateRecord selfID now livenessThreshold maxOffset liveness incrementEpoch
  let regress :=
    match liveness with
    | some l => upd.expiration.less l.expiration
    | none => false
  if regress then
    ⟨st, [], some LivenessErr.expirationRegress, none, false, false, 0, 0, 0, false⟩
  else
    let handler := fun (s : CacheState) (actual : Liveness) =>
      let m := maybeUpdate s now maxOffset actual
      if actual.IsLive now maxOffset && !incrementEpoch then
        (m.1, m.2, some LivenessErr.nodeAlreadyLive)
      else
        (m.1, m.2, some LivenessErr.epochIncremented)
    let r := updateLivenessAttempt st ⟨upd, false⟩ liveness kv handler
    match r.err with
    | some LivenessErr.nodeAlreadyLive =>
      ⟨r.cache, r.fired, none, r.written, r.hbCallback, r.condFailed, 1, 0, 0, false⟩
    | some e =>
      ⟨r.cache, r.fired, some e, r.written, r.hbCallback, r.condFailed, 0, 1, 0, false⟩
    | none =>
      let m := maybeUpdate r.cache now maxOffset upd
      ⟨m.1, r.fired ++ m.2, none, r.written, r.hbCallback, r.condFailed, 1, 0, 0, false⟩

/-- Embeds `IncrementEpoch` (node_liveness.go:695-731): refuse to bump a live
record; otherwise conditional-put the record with epoch+1.  On condition
failure the actual record is offered to the cache, then: actual epoch
greater means someone else already incremented (no-op success), smaller
means an unexpected-epoch error, equal a generic mismatch.  Success
bumps the `epochincrements` counter. -/
def IncrementEpoch (st : CacheState) (now : Timestamp) (maxOffset : Int)
    (liveness : Liveness) (kv : CPutResult) : OpResult :=
  if liveness.IsLive now maxOffset then
    ⟨st, [], some LivenessErr.cannotIncrementLive, none, false, false, 0, 0, 0, false⟩
  else
    let upd : Liveness := { liveness with epoch := liveness.epoch + 1 }
    let handler := fun (s : CacheState) (actual : Liveness) =>
      let m := maybeUpdate s now maxOffset actual
      if liveness.epoch < actual.epoch then
        (m.1, m.2, some LivenessErr.epochAlreadyIncremented)
      else if actual.epoch < liveness.epoch then
        (m.1, m.2, some LivenessErr.unexpectedEpoch)
      else
        (m.1, m.2, some LivenessErr.mismatchIncrementingEpoch)
    let r := updateLivenessAttempt st ⟨upd, false⟩ (some liveness) kv handler
    match r.err with
    | some LivenessErr.epochAlreadyIncremented =>
      ⟨r.cache, r.fired, none, r.written, r.hbCallback, r.condFailed, 0, 0, 0, false⟩
    | some e =>
      ⟨r.cache, r.fired, some e, r.written, r.hbCallback, r.condFailed, 0, 0, 0, false⟩
    | none =>
      let m := maybeUpdate r.cache now maxOffset upd
      ⟨m.1, r.fired ++ m.2, none, r.written, r.hbCallback, r.condFailed, 0, 0, 1, false⟩

/-- Embeds `setDrainingInternal` (node_liveness.go:291-332): set the draining
flag with an ignore-cache conditional-put; a condition failure whose
actual record already has the desired flag is treated as success. -/
def setDrainingInternal (st : CacheState) (now : Timestamp) (maxOffset : Int)
    (nodeID : Int) (liveness : Option Liveness) (drain : Bool)
    (kv : CPutResult) : OpResult :=
  let upd0 : Liveness :=
    match liveness with
    | none => { Liveness.empty with nodeID := nodeID, epoch := 1 }
    | some l => l
  let upd : Liveness := { upd0 with draining := drain }
  let handler := fun (s : CacheState) (actual : Liveness) =>
    let m := maybeUpdate s now maxOffset actual
    if actual.draining == upd.draining then
      (m.1, m.2, some LivenessErr.nodeDrainingSet)
    else
      (m.1, m.2, some LivenessErr.failedUpdateLiveness)
  let r := updateLivenessAttempt st ⟨upd, true⟩ liveness kv handler
  match r.err with
  | some LivenessErr.nodeDrainingSet =>
    ⟨r.cache, r.fired, none, r.written, r.hbCallback, r.condFailed, 0, 0, 0, false⟩
  | some e =>
    ⟨r.cache, r.fired, some e, r.written, r.hbCallback, r.condFailed, 0, 0, 0, false⟩
  | none =>
    let m := maybeUpdate r.cache now maxOffset upd
    ⟨m.1, r.fired ++ m.2, none, r.written, r.hbCallback, r.condFailed, 0, 0, 0, false⟩

/-- Embeds `setDecommissioningInternal` (node_liveness.go:343-370): set the
decommissioning flag with an ignore-cache conditional-put.  The handler
returns no error when the actual record already carries the requested
value, else the change-decommissioning-failed error.  `changed` is true
iff no condition failure occurred and the prior record's flag differed.
The only caller, `SetDecommissioning`, always passes a non-nil expected
record (it fails with no-liveness-record first), so the nil default of
the Go code is not modelled. -/
def setDecommissioningInternal (st : CacheState) (liveness : Liveness)
    (decommission : Bool) (kv : CPutResult) : OpResult :=
  let upd : Liveness := { liveness with decommissioning := decommission }
  let handler := fun (s : CacheState) (actual : Liveness) =>
    if actual.decommissioning == upd.decommissioning then
      (s, ([] : List (Nat × Int)), (none : Option LivenessErr))
    else
      (s, ([] : List (Nat × Int)), some LivenessErr.changeDecommissioningFailed)
  let r := updateLivenessAttempt st ⟨upd, true⟩ (some liveness) kv handler
  match r.err with
  | some e =>
    ⟨r.cache, r.fired, some e, r.written, r.hbCallback, r.condFailed, 0, 0, 0, false⟩
  | none =>
    ⟨r.cache, r.fired, none, r.written, r.hbCallback, r.condFailed, 0, 0, 0,
      !r.condFailed && liveness.decommissioning != decommission⟩

/-- One attempt of `SetDecommissioning` (node_liveness.go:223-289):
read the authoritative record from the store (`storeRecord`; the zero
record models a missing key), fail with no-liveness-record when absent,
offer the fetched record to the cache, then run
`setDecommissioningInternal` against it. -/
def SetDecommissioning (st : CacheState) (now : Timestamp) (maxOffset : Int)
    (storeRecord : Liveness) (decommission : Bool) (kv : CPutResult) : OpResult :=
  if storeRecord = Liveness.empty then
    ⟨st, [], some LivenessErr.noLivenessRecord, none, false, false, 0, 0, 0, false⟩
  else
    let m := maybeUpdate st now maxOffset storeRecord
    let r := setDecommissioningInternal m.1 storeRecord decommission kv
    ⟨r.cache, m.2 ++ r.fired, r.err, r.written, r.hbCallback, r.condFailed,
      r.succM, r.failM, r.epochIncM, r.changed⟩

/-- Embeds `IsLiveMapEntry` (node_liveness.go:603-606). -/
structure IsLiveMapEntry where
  IsLive : Bool
  epoch : Int
  deriving DecidableEq, Repr

/-- Embeds `GetIsLiveMap` (node_liveness.go:614-632): snapshot the cache,
skipping nodes that are both not live and decommissioning. -/
def GetIsLiveMap (st : CacheState) (now : Timestamp) (maxOffset : Int) :
    List (Int × IsLiveMapEntry) :=
  st.nodes.filterMap (fun p =>
    let live := p.2.IsLive now maxOffset
    if !live && p.2.decommissioning then none
    else some (p.1, ⟨live, p.2.epoch⟩))

theorem timestampLess_iff (t s : Timestamp) :
    t.less s = true ↔
      (t.wallTime < s.wallTime ∨ (t.wallTime = s.wallTime ∧ t.logical < s.logical)) := by
  simp [Timestamp.less]

theorem timestampLess_irrefl (t : Timestamp) : t.less t = false := by
  simp [Timestamp.less]

theorem timestampLess_asymm {t s : Timestamp} (h : t.less s = true) :
    s.less t = false := by
  rw [Bool.eq_false_iff]
  intro hba
  rw [timestampLess_iff] at h hba
  omega

/-- C3: the cache's acceptance predicate replaces the stored record iff
there is no prior record, or the candidate's epoch is strictly larger,
or epochs are equal and the candidate's expiration is strictly larger,
or epoch and expiration agree and a draining/decommissioning flag
differs; in particular a candidate with a strictly smaller epoch, or an
equal epoch and strictly smaller expiration, is never accepted. -/
theorem shouldReplaceLiveness_dominance (old new : Liveness) :
    (shouldReplaceLiveness old new = true ↔
      (old = Liveness.empty ∨ old.epoch < new.epoch ∨
        (old.epoch = new.epoch ∧ old.expiration.less new.expiration = true) ∨
        (old.epoch = new.epoch ∧ old.expiration = new.expiration ∧
          (old.draining ≠ new.draining ∨ old.decommissioning ≠ new.decommissioning)))) ∧
    (old ≠ Liveness.empty → new.epoch < old.epoch →
      shouldReplaceLiveness old new = false) ∧
    (old ≠ Liveness.empty → old.epoch = new.epoch →
      new.expiration.less old.expiration = true →
      shouldReplaceLiveness old new = false) := by
  refine ⟨?_, ?_, ?_⟩
  · by_cases h0 : old = Liveness.empty
    · simp [shouldReplaceLiveness, h0]
    · by_cases he : old.epoch = new.epoch
      · by_cases hx : old.expiration = new.expiration
        · simp [shouldReplaceLiveness, h0, he, hx, timestampLess_irrefl]
        · simp [shouldReplaceLiveness, h0, he, hx]
      · simp [shouldReplaceLiveness, h0, he]
  · intro h0 hlt
    rw [Bool.eq_false_iff]
    simp [shouldReplaceLiveness, h0]
    split
    · exfalso
      omega
    · omega
  · intro h0 he hexp
    rw [Bool.eq_false_iff]
    simp [shouldReplaceLiveness, h0, he]
    split
    · exfalso
      rename_i h
      rw [h] at hexp
      simp [Timestamp.less] at hexp
    · simp [timestampLess_asymm hexp]

theorem shouldReplaceLiveness_dominance_witness :
    shouldReplaceLiveness ⟨1, 5, ⟨100, 0⟩, false, false⟩
      ⟨1, 3, ⟨200, 0⟩, false, false⟩ = false ∧
    shouldReplaceLiveness ⟨1, 5, ⟨100, 0⟩, false, false⟩
      ⟨1, 5, ⟨50, 0⟩, false, false⟩ = false ∧
    (shouldReplaceLiveness ⟨1, 5, ⟨100, 0⟩, false, false⟩
      ⟨1, 5, ⟨150, 0⟩, false, false⟩ = true ↔
      (Liveness.mk 1 5 ⟨100, 0⟩ false false = Liveness.empty ∨ (5 : Int) < 5 ∨
        ((5 : Int) = 5 ∧ Timestamp.less ⟨100, 0⟩ ⟨150, 0⟩ = true) ∨
        ((5 : Int) = 5 ∧ Timestamp.mk 100 0 = Timestamp.mk 150 0 ∧
          (false ≠ false ∨ false ≠ false)))) :=
  ⟨(shouldReplaceLiveness_dominance ⟨1, 5, ⟨100, 0⟩, false, false⟩
      ⟨1, 3, ⟨200, 0⟩, false, false⟩).2.1 (by decide) (by decide),
   (shouldReplaceLiveness_dominance ⟨1, 5, ⟨100, 0⟩, false, false⟩
      ⟨1, 5, ⟨50, 0⟩, false, false⟩).2.2 (by decide) (by decide) (by decide),
   (shouldReplaceLiveness_dominance ⟨1, 5, ⟨100, 0⟩, false, false⟩
      ⟨1, 5, ⟨150, 0⟩, false, false⟩).1⟩

theorem heartbeatInternal_hbCallback (st : CacheState) (selfID : Int)
    (now : Timestamp) (thr off : Int) (liveness : Option Liveness) (inc : Bool)
    (kv : CPutResult) :
    (heartbeatInternal st selfID now thr off liveness inc kv).hbCallback =
      (heartbeatInternal st selfID now thr off liveness inc kv).written.isSome := by
  unfold heartbeatInternal updateLivenessAttempt
  cases liveness <;> simp only [Option.isSome]
  · cases hlk : lookupNode st.nodes
        (heartbeatUpdateRecord selfID now thr off none inc).nodeID <;>
      cases kv <;> simp [hlk] <;> split <;> simp
  · rename_i l
    split
    · simp
    · cases hlk : lookupNode st.nodes
          (heartbeatUpdateRecord selfID now thr off (some l) inc).nodeID <;>
        cases kv <;> simp [hlk] <;> split <;> simp <;> split <;> simp

theorem incrementEpoch_hbCallback (st : CacheState) (now : Timestamp)
    (off : Int) (l : Liveness) (kv : CPutResult) :
    (IncrementEpoch st now off l kv).hbCallback =
      (IncrementEpoch st now off l kv).written.isSome := by
  unfold IncrementEpoch updateLivenessAttempt
  split
  · simp
  · cases hlk : lookupNode st.nodes
        (Liveness.mk l.nodeID (l.epoch + 1) l.expiration l.draining
          l.decommissioning).nodeID <;>
      cases kv <;> simp [hlk] <;> split <;> simp <;> split <;> simp

theorem setDrainingInternal_hbCallback (st : CacheState) (now : Timestamp)
    (off : Int) (nid : Int) (liveness : Option Liveness) (drain : Bool)
    (kv : CPutResult) :
    (setDrainingInternal st now off nid liveness drain kv).hbCallback =
      (setDrainingInternal st now off nid liveness drain kv).written.isSome := by
  unfold setDrainingInternal updateLivenessAttempt
  cases kv <;> simp
  split <;> simp

theorem setDecommissioning_hbCallback (st : CacheState) (now : Timestamp)
    (off : Int) (rec : Liveness) (dec : Bool) (kv : CPutResult) :
    (SetDecommissioning st now off rec dec kv).hbCallback =
      (SetDecommissioning st now off rec dec kv).written.isSome := by
  unfold SetDecommissioning setDecommissioningInternal updateLivenessAttempt
  split
  · simp
  · cases kv <;> simp
    split <;> simp

/-- C10: across every operation going through the shared update path —
heartbeats, epoch increments (on any node's record), SetDraining and
SetDecommissioning — the registered heartbeat callback is invoked
exactly when the conditional-put committed, and never on a
condition-failure path (in particular not on the benign
node-already-live outcome, where nothing is written). -/
theorem heartbeatCallback_iff_commit (st : CacheState) (selfID : Int)
    (now : Timestamp) (thr off : Int) (expected : Option Liveness) (inc : Bool)
    (l rec : Liveness) (drainLiveness : Option Liveness) (nid : Int)
    (drain dec : Bool) (kv : CPutResult) :
    ((heartbeatInternal st selfID now thr off expected inc kv).hbCallback =
      (heartbeatInternal st selfID now thr off expected inc kv).written.isSome) ∧
    ((IncrementEpoch st now off l kv).hbCallback =
      (IncrementEpoch st now off l kv).written.isSome) ∧
    ((setDrainingInternal st now off nid drainLiveness drain kv).hbCallback =
      (setDrainingInternal st now off nid drainLiveness drain kv).written.isSome) ∧
    ((SetDecommissioning st now off rec dec kv).hbCallback =
      (SetDecommissioning st now off rec dec kv).written.isSome) :=
  ⟨heartbeatInternal_hbCallback st selfID now thr off expected inc kv,
   incrementEpoch_hbCallback st now off l kv,
   setDrainingInternal_hbCallback st now off nid drainLiveness drain kv,
   setDecommissioning_hbCallback st now off rec dec kv⟩

/-- C1: IncrementEpoch on an expected record that is live at the
caller's clock fails with the cannot-increment-live error, performs no
conditional-put, and leaves the cache (and callbacks) untouched. -/
theorem incrementEpoch_live_rejected (st : CacheState) (now : Timestamp)
    (off : Int) (l : Liveness) (kv : CPutResult)
    (hlive : l.IsLive now off = true) :
    (IncrementEpoch st now off l kv).err = some LivenessErr.cannotIncrementLive ∧
    (IncrementEpoch st now off l kv).written = none ∧
    (IncrementEpoch st now off l kv).cache = st ∧
    (IncrementEpoch st now off l kv).fired = [] ∧
    (IncrementEpoch st now off l kv).epochIncM = 0 := by
  unfold IncrementEpoch
  simp [hlive]

theorem incrementEpoch_live_rejected_witness :
    (IncrementEpoch ⟨[], []⟩ ⟨0, 0⟩ 1 ⟨2, 3, ⟨100, 0⟩, false, false⟩
        CPutResult.ok).err = some LivenessErr.cannotIncrementLive ∧
    (IncrementEpoch ⟨[], []⟩ ⟨0, 0⟩ 1 ⟨2, 3, ⟨100, 0⟩, false, false⟩
        CPutResult.ok).written = none ∧
    (IncrementEpoch ⟨[], []⟩ ⟨0, 0⟩ 1 ⟨2, 3, ⟨100, 0⟩, false, false⟩
        CPutResult.ok).cache = ⟨[], []⟩ ∧
    (IncrementEpoch ⟨[], []⟩ ⟨0, 0⟩ 1 ⟨2, 3, ⟨100, 0⟩, false, false⟩
        CPutResult.ok).fired = [] ∧
    (IncrementEpoch ⟨[], []⟩ ⟨0, 0⟩ 1 ⟨2, 3, ⟨100, 0⟩, false, false⟩
        CPutResult.ok).epochIncM = 0 :=
  incrementEpoch_live_rejected ⟨[], []⟩ ⟨0, 0⟩ 1
    ⟨2, 3, ⟨100, 0⟩, false, false⟩ CPutResult.ok (by decide)

/-- C2: a heartbeat with a non-nil expected record whose newly computed
expiration `now + livenessThreshold + maxOffset` is earlier than the
expected record's expiration fails with the expiration-regress error,
attempts no conditional-put, and changes nothing. -/
theorem heartbeat_expiration_regress (st : CacheState) (selfID : Int)
    (now : Timestamp) (thr off : Int) (l : Liveness) (inc : Bool)
    (kv : CPutResult) (hoff : off ≠ clocklessMaxOffset)
    (hreg : Timestamp.less (now.add (thr + off) 0) l.expiration = true) :
    (heartbeatInternal st selfID now thr off (some l) inc kv).err =
      some LivenessErr.expirationRegress ∧
    (heartbeatInternal st selfID now thr off (some l) inc kv).written = none ∧
    (heartbeatInternal st selfID now thr off (some l) inc kv).cache = st ∧
    (heartbeatInternal st selfID now thr off (some l) inc kv).fired = [] := by
  unfold heartbeatInternal
  simp [heartbeatUpdateRecord, effectiveMaxOffset, hoff, hreg]

theorem heartbeat_expiration_regress_witness :
    (heartbeatInternal ⟨[], []⟩ 1 ⟨0, 0⟩ 10 2
        (some ⟨1, 4, ⟨500, 0⟩, false, false⟩) false CPutResult.ok).err =
      some LivenessErr.expirationRegress ∧
    (heartbeatInternal ⟨[], []⟩ 1 ⟨0, 0⟩ 10 2
        (some ⟨1, 4, ⟨500, 0⟩, false, false⟩) false CPutResult.ok).written = none ∧
    (heartbeatInternal ⟨[], []⟩ 1 ⟨0, 0⟩ 10 2
        (some ⟨1, 4, ⟨500, 0⟩, false, false⟩) false CPutResult.ok).cache =
      ⟨[], []⟩ ∧
    (heartbeatInternal ⟨[], []⟩ 1 ⟨0, 0⟩ 10 2
        (some ⟨1, 4, ⟨500, 0⟩, false, false⟩) false CPutResult.ok).fired = [] :=
  heartbeat_expiration_regress ⟨[], []⟩ 1 ⟨0, 0⟩ 10 2
    ⟨1, 4, ⟨500, 0⟩, false, false⟩ false CPutResult.ok (by decide) (by decide)

/-- C6: the first heartbeat (no expected record, increment-epoch set)
proposes and stores the record `{selfID, epoch 1, now + threshold +
offset, not draining, not decommissioning}` — the epoch stays 1 — and
bumps `heartbeatsuccesses` by one. -/
theorem heartbeat_first_record (st : CacheState) (selfID : Int)
    (now : Timestamp) (thr off : Int) (hoff : off ≠ clocklessMaxOffset)
    (hlk : lookupNode st.nodes selfID = none) :
    (heartbeatInternal st selfID now thr off none true CPutResult.ok).written =
      some ⟨selfID, 1, now.add (thr + off) 0, false, false⟩ ∧
    (heartbeatInternal st selfID now thr off none true CPutResult.ok).err =
      none ∧
    (heartbeatInternal st selfID now thr off none true CPutResult.ok).succM =
      1 ∧
    (heartbeatInternal st selfID now thr off none true CPutResult.ok).failM =
      0 ∧
    (heartbeatInternal st selfID now thr off none true CPutResult.ok).cache =
      (maybeUpdate st now off ⟨selfID, 1, now.add (thr + off) 0, false, false⟩).1 := by
  unfold heartbeatInternal updateLivenessAttempt
  simp [heartbeatUpdateRecord, effectiveMaxOffset, Liveness.empty, hoff, hlk]

theorem heartbeat_first_record_witness :
    (heartbeatInternal ⟨[], []⟩ 1 ⟨0, 0⟩ 10 2 none true CPutResult.ok).written =
      some ⟨1, 1, Timestamp.add ⟨0, 0⟩ (10 + 2) 0, false, false⟩ ∧
    (heartbeatInternal ⟨[], []⟩ 1 ⟨0, 0⟩ 10 2 none true CPutResult.ok).err =
      none ∧
    (heartbeatInternal ⟨[], []⟩ 1 ⟨0, 0⟩ 10 2 none true CPutResult.ok).succM =
      1 ∧
    (heartbeatInternal ⟨[], []⟩ 1 ⟨0, 0⟩ 10 2 none true CPutResult.ok).failM =
      0 ∧
    (heartbeatInternal ⟨[], []⟩ 1 ⟨0, 0⟩ 10 2 none true CPutResult.ok).cache =
      (maybeUpdate ⟨[], []⟩ ⟨0, 0⟩ 2
        ⟨1, 1, Timestamp.add ⟨0, 0⟩ (10 + 2) 0, false, false⟩).1 :=
  heartbeat_first_record ⟨[], []⟩ 1 ⟨0, 0⟩ 10 2 (by decide) (by decide)

/-- C4: when a heartbeat's conditional-put fails with an actual stored
record, a still-live actual record with no epoch increment requested is
treated as success (bumping `heartbeatsuccesses`), the actual record
being offered to the cache; otherwise the actual record is offered to
the cache and the call fails with epoch-incremented (bumping
`heartbeatfailures`). -/
theorem heartbeat_condfail (st : CacheState) (selfID : Int) (now : Timestamp)
    (thr off : Int) (liveness : Option Liveness) (inc : Bool) (actual : Liveness)
    (hreg : ∀ l, liveness = some l →
      (heartbeatUpdateRecord selfID now thr off liveness inc).expiration.less
        l.expiration = false)
    (hpre : ∀ x, lookupNode st.nodes
        (heartbeatUpdateRecord selfID now thr off liveness inc).nodeID = some x →
      liveness = some x) :
    ((actual.IsLive now off && !inc) = true →
      heartbeatInternal st selfID now thr off liveness inc
          (CPutResult.condFailed actual) =
        ⟨(maybeUpdate st now off actual).1, (maybeUpdate st now off actual).2,
          none, none, false, true, 1, 0, 0, false⟩) ∧
    ((actual.IsLive now off && !inc) = false →
      heartbeatInternal st selfID now thr off liveness inc
          (CPutResult.condFailed actual) =
        ⟨(maybeUpdate st now off actual).1, (maybeUpdate st now off actual).2,
          some LivenessErr.epochIncremented, none, false, true, 0, 1, 0, false⟩) := by
  cases liveness with
  | none =>
    constructor <;> intro hc
    · unfold heartbeatInternal updateLivenessAttempt
      cases hlk : lookupNode st.nodes
          (heartbeatUpdateRecord selfID now thr off none inc).nodeID with
      | none => simp [hlk, hc]
      | some x => exact absurd (hpre x hlk) (by simp)
    · unfold heartbeatInternal updateLivenessAttempt
      cases hlk : lookupNode st.nodes
          (heartbeatUpdateRecord selfID now thr off none inc).nodeID with
      | none => simp [hlk, hc]
      | some x => exact absurd (hpre x hlk) (by simp)
  | some l =>
    have hr := hreg l rfl
    constructor <;> intro hc
    · unfold heartbeatInternal updateLivenessAttempt
      cases hlk : lookupNode st.nodes
          (heartbeatUpdateRecord selfID now thr off (some l) inc).nodeID with
      | none => simp [hlk, hr, hc]
      | some x =>
        have hx := hpre x hlk
        rw [Option.some.injEq] at hx
        subst hx
        simp [hlk, hr, hc]
    · unfold heartbeatInternal updateLivenessAttempt
      cases hlk : lookupNode st.nodes
          (heartbeatUpdateRecord selfID now thr off (some l) inc).nodeID with
      | none => simp [hlk, hr, hc]
      | some x =>
        have hx := hpre x hlk
        rw [Option.some.injEq] at hx
        subst hx
        simp [hlk, hr, hc]

theorem heartbeat_condfail_witness :
    (Liveness.IsLive ⟨1, 6, ⟨100, 0⟩, false, false⟩ ⟨0, 0⟩ 2 && !false) = true ∧
    heartbeatInternal ⟨[], []⟩ 1 ⟨0, 0⟩ 10 2
        (some ⟨1, 5, ⟨5, 0⟩, false, false⟩) false
        (CPutResult.condFailed ⟨1, 6, ⟨100, 0⟩, false, false⟩) =
      ⟨(maybeUpdate ⟨[], []⟩ ⟨0, 0⟩ 2 ⟨1, 6, ⟨100, 0⟩, false, false⟩).1,
        (maybeUpdate ⟨[], []⟩ ⟨0, 0⟩ 2 ⟨1, 6, ⟨100, 0⟩, false, false⟩).2,
        none, none, false, true, 1, 0, 0, false⟩ :=
  ⟨by decide,
   (heartbeat_condfail ⟨[], []⟩ 1 ⟨0, 0⟩ 10 2
      (some ⟨1, 5, ⟨5, 0⟩, false, false⟩) false ⟨1, 6, ⟨100, 0⟩, false, false⟩
      (by
        intro l hl
        injection hl with h
        subst h
        decide)
      (by
        intro x hx
        simp [lookupNode] at hx)).1 (by decide)⟩

/-- C5: when IncrementEpoch's conditional-put fails with an actual
record, a larger actual epoch is a no-op success without a write, a
smaller one fails with the unexpected-epoch error, an equal one with the
generic mismatch error; in all three cases the actual record is offered
to the cache and nothing is written. -/
theorem incrementEpoch_condfail (st : CacheState) (now : Timestamp) (off : Int)
    (l actual : Liveness)
    (hnl : l.IsLive now off = false)
    (hpre : ∀ x, lookupNode st.nodes l.nodeID = some x → x = l) :
    (l.epoch < actual.epoch →
      IncrementEpoch st now off l (CPutResult.condFailed actual) =
        ⟨(maybeUpdate st now off actual).1, (maybeUpdate st now off actual).2,
          none, none, false, true, 0, 0, 0, false⟩) ∧
    (actual.epoch < l.epoch →
      IncrementEpoch st now off l (CPutResult.condFailed actual) =
        ⟨(maybeUpdate st now off actual).1, (maybeUpdate st now off actual).2,
          some LivenessErr.unexpectedEpoch, none, false, true, 0, 0, 0, false⟩) ∧
    (actual.epoch = l.epoch →
      IncrementEpoch st now off l (CPutResult.condFailed actual) =
        ⟨(maybeUpdate st now off actual).1, (maybeUpdate st now off actual).2,
          some LivenessErr.mismatchIncrementingEpoch, none, false, true,
          0, 0, 0, false⟩) := by
  refine ⟨?_, ?_, ?_⟩ <;> intro hc <;>
    unfold IncrementEpoch updateLivenessAttempt
  · cases hlk : lookupNode st.nodes l.nodeID with
    | none => simp [hnl, hlk, hc]
    | some x =>
      have hx := hpre x hlk
      subst hx
      simp [hnl, hlk, hc]
  · have hc2 : ¬ l.epoch < actual.epoch := by omega
    cases hlk : lookupNode st.nodes l.nodeID with
    | none => simp [hnl, hlk, hc, hc2]
    | some x =>
      have hx := hpre x hlk
      subst hx
      simp [hnl, hlk, hc, hc2]
  · have hc2 : ¬ l.epoch < actual.epoch := by omega
    have hc3 : ¬ actual.epoch < l.epoch := by omega
    cases hlk : lookupNode st.nodes l.nodeID with
    | none => simp [hnl, hlk, hc2, hc3]
    | some x =>
      have hx := hpre x hlk
      subst hx
      simp [hnl, hlk, hc2, hc3]

theorem incrementEpoch_condfail_witness :
    (3 : Int) < 5 ∧
    IncrementEpoch ⟨[], []⟩ ⟨0, 0⟩ 2 ⟨2, 3, ⟨1, 0⟩, false, false⟩
        (CPutResult.condFailed ⟨2, 5, ⟨1, 0⟩, false, false⟩) =
      ⟨(maybeUpdate ⟨[], []⟩ ⟨0, 0⟩ 2 ⟨2, 5, ⟨1, 0⟩, false, false⟩).1,
        (maybeUpdate ⟨[], []⟩ ⟨0, 0⟩ 2 ⟨2, 5, ⟨1, 0⟩, false, false⟩).2,
        none, none, false, true, 0, 0, 0, false⟩ :=
  ⟨by decide,
   (incrementEpoch_condfail ⟨[], []⟩ ⟨0, 0⟩ 2 ⟨2, 3, ⟨1, 0⟩, false, false⟩
      ⟨2, 5, ⟨1, 0⟩, false, false⟩ (by decide)
      (by
        intro x hx
        simp [lookupNode] at hx)).1 (by decide)⟩

/-- C7: SetDecommissioning fails with no-liveness-record when the store
has no record; otherwise `changed` is true iff the conditional-put
committed and the prior record's decommissioning flag differed from the
requested value, and a condition failure whose actual record already
carries the requested value returns `changed = false` with no error. -/
theorem setDecommissioning_changed (st : CacheState) (now : Timestamp)
    (off : Int) (rec : Liveness) (dec : Bool) (kv : CPutResult) :
    (rec = Liveness.empty →
      SetDecommissioning st now off rec dec kv =
        ⟨st, [], some LivenessErr.noLivenessRecord, none, false, false,
          0, 0, 0, false⟩) ∧
    (rec ≠ Liveness.empty →
      ((SetDecommissioning st now off rec dec kv).changed = true ↔
        ((SetDecommissioning st now off rec dec kv).written.isSome = true ∧
          rec.decommissioning ≠ dec))) ∧
    (rec ≠ Liveness.empty → ∀ actual, kv = CPutResult.condFailed actual →
      actual.decommissioning = dec →
      (SetDecommissioning st now off rec dec kv).changed = false ∧
      (SetDecommissioning st now off rec dec kv).err = none) := by
  refine ⟨?_, ?_, ?_⟩
  · intro h0
    unfold SetDecommissioning
    simp [h0]
  · intro h0
    unfold SetDecommissioning setDecommissioningInternal updateLivenessAttempt
    cases kv with
    | ok => simp [h0, bne_iff_ne]
    | condFailed actual =>
      by_cases hd : actual.decommissioning = dec
      · simp [h0, hd]
      · simp [h0, hd]
  · intro h0 actual hkv hd
    subst hkv
    unfold SetDecommissioning setDecommissioningInternal updateLivenessAttempt
    simp [h0, hd]

theorem setDecommissioning_changed_witness :
    SetDecommissioning ⟨[], []⟩ ⟨0, 0⟩ 0 Liveness.empty true CPutResult.ok =
      ⟨⟨[], []⟩, [], some LivenessErr.noLivenessRecord, none, false, false,
        0, 0, 0, false⟩ ∧
    ((SetDecommissioning ⟨[], []⟩ ⟨0, 0⟩ 0 ⟨3, 2, ⟨50, 0⟩, false, false⟩ true
        CPutResult.ok).changed = true ↔
      ((SetDecommissioning ⟨[], []⟩ ⟨0, 0⟩ 0 ⟨3, 2, ⟨50, 0⟩, false, false⟩ true
          CPutResult.ok).written.isSome = true ∧
        (Liveness.mk 3 2 ⟨50, 0⟩ false false).decommissioning ≠ true)) ∧
    (SetDecommissioning ⟨[], []⟩ ⟨0, 0⟩ 0 ⟨3, 2, ⟨50, 0⟩, false, false⟩ true
        (CPutResult.condFailed ⟨3, 2, ⟨50, 0⟩, false, true⟩)).changed = false ∧
    (SetDecommissioning ⟨[], []⟩ ⟨0, 0⟩ 0 ⟨3, 2, ⟨50, 0⟩, false, false⟩ true
        (CPutResult.condFailed ⟨3, 2, ⟨50, 0⟩, false, true⟩)).err = none :=
  ⟨(setDecommissioning_changed ⟨[], []⟩ ⟨0, 0⟩ 0 Liveness.empty true
      CPutResult.ok).1 rfl,
   (setDecommissioning_changed ⟨[], []⟩ ⟨0, 0⟩ 0 ⟨3, 2, ⟨50, 0⟩, false, false⟩
      true CPutResult.ok).2.1 (by decide),
   (setDecommissioning_changed ⟨[], []⟩ ⟨0, 0⟩ 0 ⟨3, 2, ⟨50, 0⟩, false, false⟩
      true (CPutResult.condFailed ⟨3, 2, ⟨50, 0⟩, false, true⟩)).2.2 (by decide)
      ⟨3, 2, ⟨50, 0⟩, false, true⟩ rfl (by decide)⟩

/-- C8: when the cache accepts a record and the previously stored record
for that node was not live while the accepted one is live, every
registered becomes-live callback is invoked with the node identifier;
a rejected record changes nothing and fires no callback, and an
already-live node fires no callback. -/
theorem maybeUpdate_becomesLive (st : CacheState) (now : Timestamp) (off : Int)
    (new : Liveness) (old : Liveness)
    (hold : (lookupNode st.nodes new.nodeID).getD Liveness.empty = old) :
    (shouldReplaceLiveness old new = true → old.IsLive now off = false →
      new.IsLive now off = true →
      maybeUpdate st now off new =
        ({ st with nodes := insertNode st.nodes new.nodeID new },
          st.callbacks.map (fun c => (c, new.nodeID)))) ∧
    (shouldReplaceLiveness old new = false →
      maybeUpdate st now off new = (st, [])) ∧
    (old.IsLive now off = true → (maybeUpdate st now off new).2 = []) := by
  subst hold
  refine ⟨?_, ?_, ?_⟩
  · intro hs hol hnl
    unfold maybeUpdate
    simp [hs, hol, hnl]
  · intro hs
    unfold maybeUpdate
    simp [hs]
  · intro hol
    unfold maybeUpdate
    by_cases hs : shouldReplaceLiveness
        ((lookupNode st.nodes new.nodeID).getD Liveness.empty) new = true
    · simp [hs, hol]
    · rw [Bool.not_eq_true] at hs
      simp [hs]

theorem maybeUpdate_becomesLive_witness :
    maybeUpdate ⟨[], [7]⟩ ⟨0, 0⟩ 0 ⟨1, 1, ⟨100, 0⟩, false, false⟩ =
      (⟨insertNode [] 1 ⟨1, 1, ⟨100, 0⟩, false, false⟩, [7]⟩, [(7, 1)]) ∧
    maybeUpdate ⟨[(1, ⟨1, 5, ⟨100, 0⟩, false, false⟩)], [7]⟩ ⟨0, 0⟩ 0
      ⟨1, 3, ⟨200, 0⟩, false, false⟩ =
      (⟨[(1, ⟨1, 5, ⟨100, 0⟩, false, false⟩)], [7]⟩, []) ∧
    (maybeUpdate ⟨[(1, ⟨1, 5, ⟨100, 0⟩, false, false⟩)], [7]⟩ ⟨0, 0⟩ 0
      ⟨1, 6, ⟨200, 0⟩, false, false⟩).2 = [] :=
  ⟨by
    have h := (maybeUpdate_becomesLive ⟨[], [7]⟩ ⟨0, 0⟩ 0
      ⟨1, 1, ⟨100, 0⟩, false, false⟩ Liveness.empty (by decide)).1
      (by decide) (by decide) (by decide)
    simpa using h,
   (maybeUpdate_becomesLive ⟨[(1, ⟨1, 5, ⟨100, 0⟩, false, false⟩)], [7]⟩
      ⟨0, 0⟩ 0 ⟨1, 3, ⟨200, 0⟩, false, false⟩ ⟨1, 5, ⟨100, 0⟩, false, false⟩
      (by decide)).2.1 (by decide),
   (maybeUpdate_becomesLive ⟨[(1, ⟨1, 5, ⟨100, 0⟩, false, false⟩)], [7]⟩
      ⟨0, 0⟩ 0 ⟨1, 6, ⟨200, 0⟩, false, false⟩ ⟨1, 5, ⟨100, 0⟩, false, false⟩
      (by decide)).2.2 (by decide)⟩

theorem nodupKeys_mem_eq {ns : List (Int × Liveness)}
    (hnd : (ns.map Prod.fst).Nodup) {nid : Int} {a b : Liveness}
    (ha : (nid, a) ∈ ns) (hb : (nid, b) ∈ ns) : a = b := by
  induction ns with
  | nil => cases ha
  | cons p rest ih =>
    rw [List.map_cons, List.nodup_cons] at hnd
    rcases List.mem_cons.mp ha with ha1 | ha2 <;>
      rcases List.mem_cons.mp hb with hb1 | hb2
    · rw [← ha1] at hb1
      exact (Prod.mk.injEq nid a nid b).mp hb1.symm |>.2
    · exfalso
      apply hnd.1
      rw [← ha1]
      exact List.mem_map.mpr ⟨(nid, b), hb2, rfl⟩
    · exfalso
      apply hnd.1
      rw [← hb1]
      exact List.mem_map.mpr ⟨(nid, a), ha2, rfl⟩
    · exact ih hnd.2 ha2 hb2

/-- C9: a cached node's entry — carrying its liveness bit and epoch —
is in the GetIsLiveMap snapshot iff the node is live at the current
clock or not decommissioning; nodes both dead and decommissioning are
excluded. -/
theorem getIsLiveMap_mem (st : CacheState) (now : Timestamp) (off : Int)
    (nid : Int) (l : Liveness)
    (hnd : (st.nodes.map Prod.fst).Nodup)
    (hmem : (nid, l) ∈ st.nodes) :
    ((nid, ⟨l.IsLive now off, l.epoch⟩) ∈ GetIsLiveMap st now off) ↔
      (l.IsLive now off = true ∨ l.decommissioning = false) := by
  unfold GetIsLiveMap
  rw [List.mem_filterMap]
  constructor
  · rintro ⟨⟨k, v⟩, hkv, hf⟩
    by_cases hc : (!v.IsLive now off && v.decommissioning) = true
    · simp [hc] at hf
    · simp only [hc, if_neg, Bool.not_eq_true] at hf
      simp at hf
      obtain ⟨hk, _, _⟩ := hf
      subst hk
      have hv : v = l := nodupKeys_mem_eq hnd hkv hmem
      subst hv
      simp only [Bool.and_eq_true, Bool.not_eq_true'] at hc
      by_cases hl : v.IsLive now off = true
      · exact Or.inl hl
      · right
        rw [Bool.not_eq_true] at hl
        by_cases hdc : v.decommissioning = true
        · exact absurd ⟨by rw [hl], hdc⟩ hc
        · rwa [Bool.not_eq_true] at hdc
  · intro hcond
    refine ⟨(nid, l), hmem, ?_⟩
    have hcf : (!l.IsLive now off && l.decommissioning) = false := by
      rcases hcond with h | h <;> simp [h]
    simp [hcf]

theorem getIsLiveMap_mem_witness :
    (((1 : Int), IsLiveMapEntry.mk
        (Liveness.IsLive ⟨1, 7, ⟨100, 0⟩, false, false⟩ ⟨0, 0⟩ 0) 7) ∈
      GetIsLiveMap ⟨[(1, ⟨1, 7, ⟨100, 0⟩, false, false⟩),
        (2, ⟨2, 3, ⟨1, 0⟩, false, true⟩)], []⟩ ⟨0, 0⟩ 0) ↔
      (Liveness.IsLive ⟨1, 7, ⟨100, 0⟩, false, false⟩ ⟨0, 0⟩ 0 = true ∨
        (Liveness.mk 1 7 ⟨100, 0⟩ false false).decommissioning = false) :=
  getIsLiveMap_mem ⟨[(1, ⟨1, 7, ⟨100, 0⟩, false, false⟩),
      (2, ⟨2, 3, ⟨1, 0⟩, false, true⟩)], []⟩ ⟨0, 0⟩ 0 1
    ⟨1, 7, ⟨100, 0⟩, false, false⟩ (by decide) (by decide)

end NodeLiveness
